import Mathlib

/-!
# Verification of the judger-rs interactive judging core

Shallow embedding of `judge-core/src/judge/interact.rs`,
`judge-core/src/judge/result.rs` and `judge-core/src/utils.rs`,
with theorems settling the specification claims about verdict
computation, the epoll event loop, the pipe pump and file comparison.

Rust `Duration` values are modelled as natural numbers of nanoseconds;
Rust `i32`/`i64` fields as `Int`.
-/

namespace JudgerRs

/-- `JudgeVerdict` from `result.rs`: the closed sum of verdicts. -/
inductive JudgeVerdict where
  | Accepted
  | WrongAnswer
  | TimeLimitExceeded
  | IdlenessLimitExceeded
  | RuntimeError
  | PartialScore
  | SystemError
deriving DecidableEq, Repr

/-- A Rust `Duration`, modelled as nanoseconds. -/
abbrev Duration := Nat

/-- `Duration::from_secs` in nanoseconds. -/
def Duration.from_secs (s : Nat) : Duration := s * 1000000000

/-- The `resource_usage` record carried by `RawRunResultInfo`
(`sandbox.rs`, read through `result.rs`): user/system CPU time and
peak resident set size. -/
structure Rusage where
  user_time : Duration
  system_time : Duration
  max_rss : Int
deriving DecidableEq, Repr

/-- `RawRunResultInfo` (`sandbox.rs`): the post-mortem a sandboxed child
reports — exit status, wall time and resource usage. -/
structure RawRunResultInfo where
  exit_status : Int
  real_time_cost : Duration
  resource_usage : Rusage
deriving DecidableEq, Repr

/-- `RlimitConfigs` (`sandbox.rs`): each limit is an optional
(soft, hard) pair; the CPU limit is in seconds. -/
structure RlimitConfigs where
  stack_limit : Option (Nat × Nat)
  as_limit : Option (Nat × Nat)
  cpu_limit : Option (Nat × Nat)
  nproc_limit : Option (Nat × Nat)
  fsize_limit : Option (Nat × Nat)
deriving DecidableEq, Repr

/-- Modelled from the spec: `RlimitConfigs::get_cpu_limit_duration`
lives in `sandbox.rs`, which is not part of the sources at hand; per the
spec, "the CPU soft limit also functions as the wall-clock time-limit
reference", so it returns the configured CPU *soft* limit (seconds) as a
`Duration` when a CPU limit is configured. -/
def RlimitConfigs.get_cpu_limit_duration (c : RlimitConfigs) : Option Duration :=
  c.cpu_limit.map (fun limit => Duration.from_secs limit.1)

/-- The `runtime` sub-config of `JudgeConfig` consulted by
`check_user_result` (`config.runtime.rlimit_configs`). -/
structure RuntimeConfig where
  rlimit_configs : RlimitConfigs
deriving DecidableEq, Repr

/-- `JudgeConfig`: the fields of the judge configuration that the
interactive core reads. -/
structure JudgeConfig where
  runtime : RuntimeConfig
  program_path : String
  custom_checker_path : Option String
  input_file_path : String
  output_file_path : String
  answer_file_path : String
  check_file_path : String
deriving DecidableEq, Repr

/-- `JudgeResultInfo` (`result.rs`): the final verdict record. -/
structure JudgeResultInfo where
  verdict : JudgeVerdict
  time_usage : Duration
  memory_usage_bytes : Int
  exit_status : Int
  checker_exit_status : Int
deriving DecidableEq, Repr

/-- `get_run_time` (`result.rs`): user CPU time plus system CPU time. -/
def get_run_time (raw_info : RawRunResultInfo) : Duration :=
  raw_info.resource_usage.user_time + raw_info.resource_usage.system_time

/-- `get_max_mem` (`result.rs`): the post-mortem peak RSS. -/
def get_max_mem (raw_info : RawRunResultInfo) : Int :=
  raw_info.resource_usage.max_rss

/-- `check_user_result` (`result.rs`): preliminary verdict from the
user's post-mortem. If a CPU limit is configured and the run time
strictly exceeds it, `TimeLimitExceeded` is returned at once; otherwise
a nonzero exit status yields `RuntimeError` and a zero exit status
yields no verdict. -/
def check_user_result (config : JudgeConfig) (raw_info : RawRunResultInfo) :
    Option JudgeVerdict :=
  match config.runtime.rlimit_configs.get_cpu_limit_duration with
  | some time_limit =>
    if get_run_time raw_info > time_limit then
      some .TimeLimitExceeded
    else
      match raw_info.exit_status with
      | 0 => none
      | _ => some .RuntimeError
  | none =>
    match raw_info.exit_status with
    | 0 => none
    | _ => some .RuntimeError

/-- `check_checker_result` (`result.rs`): verdict from the checker's
exit status. -/
def check_checker_result (raw_info : RawRunResultInfo) : JudgeVerdict :=
  match raw_info.exit_status with
  | 0 => .Accepted
  | 256 => .WrongAnswer
  | _ => .SystemError

/-! ## `interact.rs`: pipe fabric, pump and event loop -/

/-- The named ends of the six pipes `run_interact` allocates
(`interact.rs` lines 68-71 and 89-90). -/
inductive PipeEnd where
  | proxy_read_user
  | user_write_proxy
  | proxy_read_interactor
  | interactor_write_proxy
  | user_read_proxy
  | proxy_write_user
  | interactor_read_proxy
  | proxy_write_interactor
  | user_exit_read
  | user_exit_write
  | interactor_exit_read
  | interactor_exit_write
deriving DecidableEq, Repr

/-- The descriptors `run_interact` passes to `set_non_blocking`, in
source order (`interact.rs` lines 76-79). -/
def set_non_blocking_calls : List PipeEnd :=
  [.user_write_proxy, .interactor_write_proxy,
   .proxy_read_user, .proxy_read_interactor]

/-- The setup-phase actions of `run_interact` observable in the
source, in program order (`interact.rs` lines 76-143): the four
`set_non_blocking` calls, the four `add_epoll_fd` registrations, the
two `set_exit_fd` installations, the transcript-file open, and the two
child spawns. -/
inductive SetupAction where
  | set_nonblock (e : PipeEnd)
  | add_epoll (e : PipeEnd)
  | set_exit_fd (e : PipeEnd)
  | open_output
  | spawn_user
  | spawn_interactor
deriving DecidableEq, Repr

/-- The straight-line setup trace of `run_interact` before the event
loop starts (`interact.rs` lines 76-143, in source order). -/
def run_interact_setup : List SetupAction :=
  [.set_nonblock .user_write_proxy,
   .set_nonblock .interactor_write_proxy,
   .set_nonblock .proxy_read_user,
   .set_nonblock .proxy_read_interactor,
   .add_epoll .proxy_read_user,
   .add_epoll .proxy_read_interactor,
   .add_epoll .user_exit_read,
   .add_epoll .interactor_exit_read,
   .set_exit_fd .user_exit_write,
   .set_exit_fd .interactor_exit_write,
   .open_output,
   .spawn_user,
   .spawn_interactor]

/-- Whether a setup action registers an exit-report read end with the
epoll instance. -/
def SetupAction.isExitRegistration : SetupAction → Bool
  | .add_epoll .user_exit_read => true
  | .add_epoll .interactor_exit_read => true
  | _ => false

/-- Whether a setup action spawns one of the two children. -/
def SetupAction.isSpawn : SetupAction → Bool
  | .spawn_user => true
  | .spawn_interactor => true
  | _ => false

/-- The error codes distinguished by `pump_proxy_pipe` when
`read` fails. -/
inductive Errno where
  | EAGAIN
  | EWOULDBLOCK
  | EPIPE
  | EBADF
  | EIO
deriving DecidableEq, Repr

/-- One outcome of the `read(from, &mut buf)` call in
`pump_proxy_pipe`: either `Ok(nread)` with the bytes read (possibly
zero at end-of-stream), or an errno. -/
inductive ReadOutcome where
  | ok (data : List Nat)
  | err (e : Errno)
deriving DecidableEq, Repr

/-- How a run of `pump_proxy_pipe` ends, given a finite window of read
outcomes: the function returned (would-block), panicked (any other
read error), or is still looping when the window is exhausted. -/
inductive PumpOutcome where
  | returned
  | panicked
  | stillLooping
deriving DecidableEq, Repr

/-- The observable behaviour of one `pump_proxy_pipe` run: how it
ended and the successive payloads it passed to `write` on the
forwarding pipe and on the transcript descriptor. -/
structure PumpRun where
  outcome : PumpOutcome
  forwarded : List (List Nat)
  transcript : List (List Nat)
deriving DecidableEq, Repr

/-- `pump_proxy_pipe` (`interact.rs` lines 27-44) over a finite window
of read outcomes. On `Ok(nread)` it writes `buf[..nread]` to the
forwarding pipe and to the transcript — both `write` results are
discarded with `.ok()`, so the per-write results `to_results` and
`output_results` are never consulted — and loops. On a read error it
returns when the error is `EAGAIN` or `EWOULDBLOCK` and panics on
anything else. -/
def pump_proxy_pipe (reads : List ReadOutcome)
    (to_results output_results : List Nat → Option Nat) : PumpRun :=
  match reads with
  | [] => ⟨.stillLooping, [], []⟩
  | .ok data :: rest =>
    let _ := to_results data
    let _ := output_results data
    let r := pump_proxy_pipe rest to_results output_results
    ⟨r.outcome, data :: r.forwarded, data :: r.transcript⟩
  | .err e :: _ =>
    if e = .EAGAIN ∨ e = .EWOULDBLOCK then ⟨.returned, [], []⟩
    else ⟨.panicked, [], []⟩

/-- Stated from the claim, for comparison with `pump_proxy_pipe`: the
pump's exit condition depends only on the first non-`Ok` read — it
returns exactly on would-block, panics on any other read error, and
keeps looping while reads succeed (including zero-byte end-of-stream
reads). -/
def pump_exit_condition : List ReadOutcome → PumpOutcome
  | [] => .stillLooping
  | .ok _ :: rest => pump_exit_condition rest
  | .err .EAGAIN :: _ => .returned
  | .err .EWOULDBLOCK :: _ => .returned
  | .err _ :: _ => .panicked

/-! ### The epoll event loop -/

/-- One readiness event the event loop can receive from `epoll_wait`,
identified by descriptor (`interact.rs` lines 152-189). -/
inductive LoopEvent where
  | user_exit_ready
  | interactor_exit_ready
  | proxy_user_ready
  | proxy_interactor_ready
deriving DecidableEq, Repr

/-- The flag state computed by one iteration of the event loop: the
code declares `user_exited` and `interactor_exited` as fresh `false`
variables at the top of each iteration (`interact.rs` lines 150-151)
and sets them while walking the batch of events. -/
def batch_exit_flags (batch : List LoopEvent) : Bool × Bool :=
  batch.foldl
    (fun flags event =>
      match event with
      | .user_exit_ready => (true, flags.2)
      | .interactor_exit_ready => (flags.1, true)
      | _ => flags)
    (false, false)

/-- The event loop of `run_interact` (`interact.rs` lines 147-194)
over a finite sequence of `epoll_wait` batches: each iteration
re-initializes both exit flags, processes one batch, and breaks iff
both flags are set at the end of that same batch. Returns `true` when
the loop broke within the given batches and `false` when it is still
blocked in `epoll_wait` after all of them. -/
def event_loop_breaks : List (List LoopEvent) → Bool
  | [] => false
  | batch :: rest =>
    let flags := batch_exit_flags batch
    if flags.1 && flags.2 then true else event_loop_breaks rest

/-- How many times a given event was delivered across all batches. -/
def delivered_count (batches : List (List LoopEvent)) (e : LoopEvent) : Nat :=
  (batches.flatten.filter (fun x => x = e)).length

/-- The post-event-loop phase of `run_interact` (`interact.rs` lines
196-225): either the checker sandbox is spawned and waited on, or the
run fails with a "checker path is not provided" error. -/
inductive PostLoopOutcome where
  | checker_invoked
  | err_no_checker_path
deriving DecidableEq, Repr

/-- The checker-stage decision in `run_interact` (`interact.rs` lines
202-224): the checker is spawned iff `custom_checker_path` is `Some`;
nothing else — in particular no user exit information — is consulted. -/
def run_interact_post_loop (runner_config : JudgeConfig) : PostLoopOutcome :=
  match runner_config.custom_checker_path with
  | some _ => .checker_invoked
  | none => .err_no_checker_path

/-- Modelled from the spec: the verdict composer (spec component 4.E)
is not among the sources at hand — `run_interact` in `interact.rs`
returns the checker's raw result and composition happens in a caller.
Per the spec: no stored user exit info yields `IdlenessLimitExceeded`
with zeroed fields; otherwise a preliminary verdict from
`check_user_result` is emitted with the measured time and RSS and
`checker_exit_status = 0`; otherwise the checker result decides via
`check_checker_result`; with no checker configured the result is a
system error. -/
def compose_verdict (config : JudgeConfig)
    (user_info : Option RawRunResultInfo)
    (checker_info : Option RawRunResultInfo) : JudgeResultInfo :=
  match user_info with
  | none =>
    { verdict := .IdlenessLimitExceeded, time_usage := 0,
      memory_usage_bytes := 0, exit_status := 0, checker_exit_status := 0 }
  | some info =>
    match check_user_result config info with
    | some verdict =>
      { verdict := verdict, time_usage := get_run_time info,
        memory_usage_bytes := get_max_mem info,
        exit_status := info.exit_status, checker_exit_status := 0 }
    | none =>
      match checker_info with
      | some checker =>
        { verdict := check_checker_result checker,
          time_usage := get_run_time info,
          memory_usage_bytes := get_max_mem info,
          exit_status := info.exit_status,
          checker_exit_status := checker.exit_status }
      | none =>
        { verdict := .SystemError, time_usage := get_run_time info,
          memory_usage_bytes := get_max_mem info,
          exit_status := info.exit_status, checker_exit_status := 0 }

/-! ## `utils.rs`: `compare_files` -/

/-- `compare_files` (`utils.rs` lines 80-92) over the two files' line
sequences: zip the lines and require every zipped pair to be equal
after trimming trailing whitespace (`trim_end`, modelled by
`String.trimRight`). -/
def compare_files (file1 file2 : List String) : Bool :=
  (file1.zip file2).all (fun lines => lines.1.trimRight == lines.2.trimRight)

/-! ## Concrete instances (from the repository's own test configuration) -/

/-- The `TEST_CONFIG` rlimit profile from the `interact.rs` test module:
CPU limit 1 second soft, 2 seconds hard. -/
def TEST_CONFIG : RlimitConfigs :=
  { stack_limit := some (67108864, 67108864),
    as_limit := some (67108864, 67108864),
    cpu_limit := some (1, 2),
    nproc_limit := some (1, 1),
    fsize_limit := some (1024, 1024) }

/-- The judge configuration of the repository's interactive test, with a
custom checker configured. -/
def test_judge_config : JudgeConfig :=
  { runtime := { rlimit_configs := TEST_CONFIG },
    program_path := "./../test-collection/dist/programs/read_and_write",
    custom_checker_path := some "./../test-collection/dist/checkers/lcmp",
    input_file_path := "../tmp/in",
    output_file_path := "../tmp/out",
    answer_file_path := "../tmp/ans",
    check_file_path := "../tmp/check" }

/-- A user post-mortem with nonzero exit status and negligible CPU
time: `check_user_result` yields the preliminary verdict
`RuntimeError` for it under `test_judge_config`. -/
def runtime_error_exit_info : RawRunResultInfo :=
  { exit_status := 1, real_time_cost := 0,
    resource_usage := { user_time := 0, system_time := 0, max_rss := 0 } }

end JudgerRs

namespace JudgerRs

/-! ## Theorems for the claims -/

/-- **C3.** For every run in which no user exit info was received, the
composed result has verdict `IdlenessLimitExceeded` with zeroed time,
memory and exit-status fields. -/
theorem compose_verdict_idleness_on_missing_user_info
    (config : JudgeConfig) (checker_info : Option RawRunResultInfo) :
    compose_verdict config none checker_info =
      { verdict := .IdlenessLimitExceeded, time_usage := 0,
        memory_usage_bytes := 0, exit_status := 0,
        checker_exit_status := 0 } := rfl

/-- **C5.** The verdict derived from the checker's exit status is
exactly: `Accepted` at 0, `WrongAnswer` at 256, `SystemError`
everywhere else. -/
theorem check_checker_result_mapping (raw : RawRunResultInfo) :
    check_checker_result raw =
      if raw.exit_status = 0 then .Accepted
      else if raw.exit_status = 256 then .WrongAnswer
      else .SystemError := by
  unfold check_checker_result
  split <;> simp_all

/-- **C4.** With a CPU limit configured, the preliminary verdict is
computed with this priority: user CPU time (`user_time + system_time`)
strictly above the CPU soft limit gives `TimeLimitExceeded` regardless
of exit status; otherwise a nonzero exit status gives `RuntimeError`;
otherwise there is no preliminary verdict. -/
theorem check_user_result_tle_priority
    (config : JudgeConfig) (raw : RawRunResultInfo) (soft hard : Nat)
    (h : config.runtime.rlimit_configs.cpu_limit = some (soft, hard)) :
    check_user_result config raw =
      if raw.resource_usage.user_time + raw.resource_usage.system_time >
          Duration.from_secs soft then some .TimeLimitExceeded
      else if raw.exit_status = 0 then none
      else some .RuntimeError := by
  unfold check_user_result RlimitConfigs.get_cpu_limit_duration get_run_time
  rw [h]
  simp only [Option.map_some']
  split <;> rename_i hgt
  · simp [hgt]
  · split <;> simp_all

/-- Witness for C4 at the repository's own test configuration and a
post-mortem with exit status 1. -/
theorem check_user_result_tle_priority_witness :
    test_judge_config.runtime.rlimit_configs.cpu_limit = some (1, 2) ∧
    check_user_result test_judge_config runtime_error_exit_info =
      (if runtime_error_exit_info.resource_usage.user_time +
          runtime_error_exit_info.resource_usage.system_time >
          Duration.from_secs 1 then some .TimeLimitExceeded
       else if runtime_error_exit_info.exit_status = 0 then none
       else some .RuntimeError) :=
  ⟨rfl, check_user_result_tle_priority test_judge_config
    runtime_error_exit_info 1 2 rfl⟩

/-- **C1.** The event loop does *not* exit whenever both exit-report
channels have delivered exactly one message each: with the user exit
event in one `epoll_wait` batch and the interactor exit event in a
later batch — each channel delivering exactly once — the loop never
breaks, because both flags are re-initialized to `false` at the top of
every iteration; it breaks only when a single batch carries both exit
events. -/
theorem event_loop_cross_batch_never_breaks :
    delivered_count [[.user_exit_ready], [.interactor_exit_ready]]
      .user_exit_ready = 1 ∧
    delivered_count [[.user_exit_ready], [.interactor_exit_ready]]
      .interactor_exit_ready = 1 ∧
    event_loop_breaks [[.user_exit_ready], [.interactor_exit_ready]] = false ∧
    event_loop_breaks [[.user_exit_ready, .interactor_exit_ready]] = true := by
  decide

/-- **C2.** The checker stage in `run_interact` is *not* gated on the
user's preliminary verdict: at the repository's own test
configuration, a user post-mortem with exit status 1 has preliminary
verdict `RuntimeError`, yet the post-loop phase still invokes the
checker, because it consults only `custom_checker_path`. -/
theorem checker_invoked_despite_preliminary_verdict :
    check_user_result test_judge_config runtime_error_exit_info =
      some .RuntimeError ∧
    run_interact_post_loop test_judge_config = .checker_invoked := by
  constructor
  · rfl
  · rfl

/-- **C8.** In the setup trace of `run_interact`, every registration
of an exit-report read descriptor with the epoll instance precedes
every child spawn. -/
theorem exit_registration_before_spawn
    (i j : Fin run_interact_setup.length)
    (hreg : (run_interact_setup.get i).isExitRegistration = true)
    (hspawn : (run_interact_setup.get j).isSpawn = true) :
    (i : Nat) < (j : Nat) := by
  revert hreg hspawn
  revert i j
  decide

/-- Witness for C8: the registration of `interactor_exit_read` (index
7) precedes the spawn of the user child (index 11). -/
theorem exit_registration_before_spawn_witness :
    (run_interact_setup.get ⟨7, by decide⟩).isExitRegistration = true ∧
    (run_interact_setup.get ⟨11, by decide⟩).isSpawn = true ∧
    ((⟨7, by decide⟩ : Fin run_interact_setup.length) : Nat) <
      ((⟨11, by decide⟩ : Fin run_interact_setup.length) : Nat) :=
  ⟨by decide, by decide,
    exit_registration_before_spawn ⟨7, by decide⟩ ⟨11, by decide⟩
      (by decide) (by decide)⟩

/-- **C7, counterexample.** The set of descriptors made non-blocking
is not the one claimed: neither exit read end is set non-blocking,
`user_read_proxy` is not set non-blocking, while `user_write_proxy` —
a write end — is. -/
theorem set_non_blocking_claim_false :
    PipeEnd.user_exit_read ∉ set_non_blocking_calls ∧
    PipeEnd.interactor_exit_read ∉ set_non_blocking_calls ∧
    PipeEnd.user_read_proxy ∉ set_non_blocking_calls ∧
    PipeEnd.user_write_proxy ∈ set_non_blocking_calls := by
  decide

/-- **C7, amended.** Exactly `user_write_proxy`,
`interactor_write_proxy`, `proxy_read_user` and
`proxy_read_interactor` are set non-blocking; every other pipe end —
including both exit read ends and the proxy write ends
`proxy_write_user` and `proxy_write_interactor` — remains blocking. -/
theorem set_non_blocking_exact (e : PipeEnd) :
    e ∈ set_non_blocking_calls ↔
      (e = .user_write_proxy ∨ e = .interactor_write_proxy ∨
       e = .proxy_read_user ∨ e = .proxy_read_interactor) := by
  cases e <;> decide

/-- The pump's exit classification for a window of successful,
possibly empty, reads: the window is exhausted without returning. -/
lemma pump_exit_condition_replicate_ok (n : Nat) (d : List Nat) :
    pump_exit_condition (List.replicate n (.ok d)) = .stillLooping := by
  induction n with
  | zero => rfl
  | succ n ih => simpa [List.replicate, pump_exit_condition] using ih

/-- **C9.** `pump_proxy_pipe` returns only when a read reports
would-block and panics on any other read error: its outcome is the
first-error classification `pump_exit_condition`, whatever the write
results are; consequently, on a source at end-of-stream — every read
yielding `Ok(0)` instead of would-block — it keeps looping through
every finite window and never returns. -/
theorem pump_returns_only_on_wouldblock :
    (∀ (reads : List ReadOutcome) (t o : List Nat → Option Nat),
      (pump_proxy_pipe reads t o).outcome = pump_exit_condition reads) ∧
    (∀ (n : Nat) (t o : List Nat → Option Nat),
      (pump_proxy_pipe (List.replicate n (.ok [])) t o).outcome =
        .stillLooping) := by
  have houtcome : ∀ (reads : List ReadOutcome) (t o : List Nat → Option Nat),
      (pump_proxy_pipe reads t o).outcome = pump_exit_condition reads := by
    intro reads t o
    induction reads with
    | nil => rfl
    | cons r rest ih =>
      cases r with
      | ok d => simpa [pump_proxy_pipe, pump_exit_condition] using ih
      | err e => cases e <;> rfl
  refine ⟨houtcome, fun n t o => ?_⟩
  rw [houtcome]
  exact pump_exit_condition_replicate_ok n []

/-- **C6, counterexample.** A write that fails because the peer pipe
is closed is *silently ignored*, not reported: here `none` models a
`write` call failing with `EPIPE` (its `Result` is discarded by
`.ok()`), and the pump run with every write failing is identical —
same normal return, no panic — to the run with every write
succeeding. -/
theorem pump_epipe_write_silently_ignored :
    pump_proxy_pipe [.ok [7], .err .EAGAIN]
        (fun _ => none) (fun _ => none) =
      pump_proxy_pipe [.ok [7], .err .EAGAIN]
        (fun d => some d.length) (fun d => some d.length) ∧
    (pump_proxy_pipe [.ok [7], .err .EAGAIN]
        (fun _ => none) (fun _ => none)).outcome = .returned :=
  ⟨rfl, rfl⟩

/-- **C6, amended.** The results of the writes to the forwarding pipe
and to the transcript descriptor — failed (`none`, e.g. `EPIPE` from a
closed peer) or successful — are never consulted: the entire pump run,
its outcome included, is independent of them, so write failures are
silently ignored and only a read error other than would-block is
fatal. -/
theorem pump_run_independent_of_write_results
    (reads : List ReadOutcome) (t1 o1 t2 o2 : List Nat → Option Nat) :
    pump_proxy_pipe reads t1 o1 = pump_proxy_pipe reads t2 o2 := by
  induction reads with
  | nil => rfl
  | cons r rest ih =>
    cases r with
    | ok d => simp [pump_proxy_pipe, ih]
    | err e => rfl

/-- In the zip of a list with itself extended on the right, only the
diagonal pairs survive. -/
lemma zip_append_right_self {α : Type} (l t : List α) :
    l.zip (l ++ t) = l.zip l := by
  induction l with
  | nil => rfl
  | cons a l ih => simpa [List.zip_cons_cons] using ih

/-- Zipping a left-extended list against the original also truncates
to the diagonal. -/
lemma zip_append_left_self {α : Type} (l t : List α) :
    (l ++ t).zip l = l.zip l := by
  induction l with
  | nil => simp
  | cons a l ih => simpa [List.zip_cons_cons] using ih

/-- Every pair in the zip of a list with itself is diagonal. -/
lemma zip_self_diag {α : Type} (l : List α) :
    ∀ p ∈ l.zip l, p.1 = p.2 := by
  induction l with
  | nil => intro p hp; cases hp
  | cons a l ih =>
    intro p hp
    rw [List.zip_cons_cons, List.mem_cons] at hp
    rcases hp with hp | hp
    · rw [hp]
    · exact ih p hp

/-- **C10.** `compare_files` is true exactly when every zipped pair of
lines is equal after trimming trailing whitespace; since the
comparison is over the zip of the two line sequences, it is true
whenever one file's line sequence is a prefix of the other's — in
particular whenever either file is empty. -/
theorem compare_files_zip_truncation (l1 l2 : List String) :
    (compare_files l1 l2 = true ↔
      ∀ p ∈ l1.zip l2, p.1.trimRight = p.2.trimRight) ∧
    (l1 <+: l2 ∨ l2 <+: l1 → compare_files l1 l2 = true) ∧
    compare_files [] l2 = true ∧
    compare_files l1 [] = true := by
  have hiff : ∀ (a b : List String), compare_files a b = true ↔
      ∀ p ∈ a.zip b, p.1.trimRight = p.2.trimRight := by
    intro a b
    simp [compare_files, List.all_eq_true]
  refine ⟨hiff l1 l2, ?_, ?_, ?_⟩
  · rintro (⟨t, rfl⟩ | ⟨t, rfl⟩)
    · rw [hiff]
      rw [zip_append_right_self]
      intro p hp
      rw [zip_self_diag l1 p hp]
    · rw [hiff]
      rw [zip_append_left_self]
      intro p hp
      rw [zip_self_diag l2 p hp]
  · rw [hiff]
    intro p hp
    cases hp
  · rw [hiff]
    intro p hp
    rw [List.zip_nil_right] at hp
    cases hp

/-- Witness for C10: a single-line file against the same file with an
extra line — a strict prefix — compares equal. -/
theorem compare_files_zip_truncation_witness :
    ((["7"] : List String) <+: ["7", "extra"]) ∧
    compare_files ["7"] ["7", "extra"] = true :=
  ⟨⟨["extra"], rfl⟩,
    (compare_files_zip_truncation ["7"] ["7", "extra"]).2.1
      (Or.inl ⟨["extra"], rfl⟩)⟩

end JudgerRs
